import Mathlib

/-
Shallow embedding of the rootbox-rs sources (src/config.rs, src/error.rs,
src/namespace.rs, src/mount.rs, src/pty.rs, src/main.rs).

Side effects (syscalls, file writes, directory creation) are modelled as
explicit event lists emitted by the embedded functions; environment
interactions whose outcome the program merely observes (file existence,
select/read results, terminal state) are oracle parameters.
-/

/-! ## config.rs : data model and defaults -/

/-- `Features` from config.rs: nine booleans toggling the pipeline. -/
structure Features where
  overlayfs : Bool
  user_namespace : Bool
  mount_namespace : Bool
  pid_namespace : Bool
  uts_namespace : Bool
  network_namespace : Bool
  pty_enabled : Bool
  parent_death_signal : Bool
  no_new_privs : Bool
deriving DecidableEq, Repr

/-- `Namespaces` from config.rs. -/
structure Namespaces where
  hostname : Option String
  domainname : Option String
deriving DecidableEq, Repr

/-- `BindMount` from config.rs. Paths are modelled as strings. -/
structure BindMount where
  source : String
  destination : String
  readonly : Bool
  recursive : Bool
deriving DecidableEq, Repr

/-- `Mounts` from config.rs. -/
structure Mounts where
  mount_proc : Bool
  mount_sys : Bool
  mount_dev : Bool
  mount_tmp : Bool
  make_root_private : Bool
  sys_readonly : Bool
  bind_mounts : List BindMount
deriving DecidableEq, Repr

/-- `Security` from config.rs (retained, unused by the pipeline). -/
structure Security where
  apparmor_enabled : Bool
  apparmor_profile : Option String
  drop_capabilities : Bool
  keep_capabilities : List String
deriving DecidableEq, Repr

/-- `Pty` from config.rs; u16 fields modelled as Nat (defaults 24 and 80). -/
structure Pty where
  default_rows : Nat
  default_cols : Nat
deriving DecidableEq, Repr

/-- `Config` from config.rs. -/
structure Config where
  features : Features
  namespaces : Namespaces
  mounts : Mounts
  security : Security
  pty : Pty
deriving DecidableEq, Repr

/-- `impl Default for Features` from config.rs. -/
def Features.default : Features :=
  { overlayfs := true
    user_namespace := true
    mount_namespace := true
    pid_namespace := true
    uts_namespace := true
    network_namespace := false
    pty_enabled := true
    parent_death_signal := true
    no_new_privs := true }

/-- `impl Default for Namespaces` from config.rs. -/
def Namespaces.default : Namespaces := { hostname := none, domainname := none }

/-- `impl Default for Mounts` from config.rs. -/
def Mounts.default : Mounts :=
  { mount_proc := true
    mount_sys := true
    mount_dev := true
    mount_tmp := true
    make_root_private := true
    sys_readonly := true
    bind_mounts := [] }

/-- `impl Default for Security` from config.rs. -/
def Security.default : Security :=
  { apparmor_enabled := false
    apparmor_profile := none
    drop_capabilities := false
    keep_capabilities := [] }

/-- `impl Default for Pty` from config.rs. -/
def Pty.default : Pty := { default_rows := 24, default_cols := 80 }

/-- `impl Default for Config` from config.rs. -/
def Config.default : Config :=
  { features := Features.default
    namespaces := Namespaces.default
    mounts := Mounts.default
    security := Security.default
    pty := Pty.default }

/-! ## config.rs : deserialization with `#[serde(default)]` semantics

A parsed TOML document is modelled field-by-field: a present key carries a
value, an absent key is `none`.  `#[serde(default)]` on each struct means a
missing field takes its value from the struct's `Default` instance; on
`BindMount`, `source`/`destination` are mandatory, `readonly` defaults to
`false` and `recursive` to `true` (`default_true`). -/

/-- The `features` table as parsed, before defaulting. -/
structure FeaturesOpt where
  overlayfs : Option Bool
  user_namespace : Option Bool
  mount_namespace : Option Bool
  pid_namespace : Option Bool
  uts_namespace : Option Bool
  network_namespace : Option Bool
  pty_enabled : Option Bool
  parent_death_signal : Option Bool
  no_new_privs : Option Bool
deriving DecidableEq, Repr

/-- The `namespaces` table as parsed, before defaulting. -/
structure NamespacesOpt where
  hostname : Option (Option String)
  domainname : Option (Option String)
deriving DecidableEq, Repr

/-- A `bind_mounts` entry as parsed, before defaulting. -/
structure BindMountOpt where
  source : String
  destination : String
  readonly : Option Bool
  recursive : Option Bool
deriving DecidableEq, Repr

/-- The `mounts` table as parsed, before defaulting. -/
structure MountsOpt where
  mount_proc : Option Bool
  mount_sys : Option Bool
  mount_dev : Option Bool
  mount_tmp : Option Bool
  make_root_private : Option Bool
  sys_readonly : Option Bool
  bind_mounts : Option (List BindMountOpt)
deriving DecidableEq, Repr

/-- The `security` table as parsed, before defaulting. -/
structure SecurityOpt where
  apparmor_enabled : Option Bool
  apparmor_profile : Option (Option String)
  drop_capabilities : Option Bool
  keep_capabilities : Option (List String)
deriving DecidableEq, Repr

/-- The `pty` table as parsed, before defaulting. -/
structure PtyOpt where
  default_rows : Option Nat
  default_cols : Option Nat
deriving DecidableEq, Repr

/-- A whole config document as parsed, before defaulting. -/
structure ConfigOpt where
  features : Option FeaturesOpt
  namespaces : Option NamespacesOpt
  mounts : Option MountsOpt
  security : Option SecurityOpt
  pty : Option PtyOpt
deriving DecidableEq, Repr

/-- `#[serde(default)]` filling for `Features`. -/
def Features.fromOpt (p : FeaturesOpt) : Features :=
  { overlayfs := p.overlayfs.getD Features.default.overlayfs
    user_namespace := p.user_namespace.getD Features.default.user_namespace
    mount_namespace := p.mount_namespace.getD Features.default.mount_namespace
    pid_namespace := p.pid_namespace.getD Features.default.pid_namespace
    uts_namespace := p.uts_namespace.getD Features.default.uts_namespace
    network_namespace := p.network_namespace.getD Features.default.network_namespace
    pty_enabled := p.pty_enabled.getD Features.default.pty_enabled
    parent_death_signal := p.parent_death_signal.getD Features.default.parent_death_signal
    no_new_privs := p.no_new_privs.getD Features.default.no_new_privs }

/-- `#[serde(default)]` filling for `Namespaces`. -/
def Namespaces.fromOpt (p : NamespacesOpt) : Namespaces :=
  { hostname := p.hostname.getD Namespaces.default.hostname
    domainname := p.domainname.getD Namespaces.default.domainname }

/-- Field defaulting for a `BindMount` entry (`readonly` absent means false,
`recursive` absent means `default_true`). -/
def BindMount.fromOpt (p : BindMountOpt) : BindMount :=
  { source := p.source
    destination := p.destination
    readonly := p.readonly.getD false
    recursive := p.recursive.getD true }

/-- `#[serde(default)]` filling for `Mounts`. -/
def Mounts.fromOpt (p : MountsOpt) : Mounts :=
  { mount_proc := p.mount_proc.getD Mounts.default.mount_proc
    mount_sys := p.mount_sys.getD Mounts.default.mount_sys
    mount_dev := p.mount_dev.getD Mounts.default.mount_dev
    mount_tmp := p.mount_tmp.getD Mounts.default.mount_tmp
    make_root_private := p.make_root_private.getD Mounts.default.make_root_private
    sys_readonly := p.sys_readonly.getD Mounts.default.sys_readonly
    bind_mounts := (p.bind_mounts.getD []).map BindMount.fromOpt }

/-- `#[serde(default)]` filling for `Security`. -/
def Security.fromOpt (p : SecurityOpt) : Security :=
  { apparmor_enabled := p.apparmor_enabled.getD Security.default.apparmor_enabled
    apparmor_profile := p.apparmor_profile.getD Security.default.apparmor_profile
    drop_capabilities := p.drop_capabilities.getD Security.default.drop_capabilities
    keep_capabilities := p.keep_capabilities.getD Security.default.keep_capabilities }

/-- `#[serde(default)]` filling for `Pty`. -/
def Pty.fromOpt (p : PtyOpt) : Pty :=
  { default_rows := p.default_rows.getD Pty.default.default_rows
    default_cols := p.default_cols.getD Pty.default.default_cols }

/-- `#[serde(default)]` filling for `Config`: an absent section takes the
section's `Default`, a present section is filled field-wise. -/
def Config.fromOpt (p : ConfigOpt) : Config :=
  { features := match p.features with
      | some f => Features.fromOpt f
      | none => Features.default
    namespaces := match p.namespaces with
      | some n => Namespaces.fromOpt n
      | none => Namespaces.default
    mounts := match p.mounts with
      | some m => Mounts.fromOpt m
      | none => Mounts.default
    security := match p.security with
      | some s => Security.fromOpt s
      | none => Security.default
    pty := match p.pty with
      | some t => Pty.fromOpt t
      | none => Pty.default }

/-- A config document with every section absent. -/
def ConfigOpt.empty : ConfigOpt :=
  { features := none, namespaces := none, mounts := none, security := none, pty := none }

/-! ## error.rs and Config::from_file -/

/-- `RootboxError` from error.rs (payloads abbreviated to their message
strings).  Note the enum has no `ConfigError` variant. -/
inductive RootboxError where
  | namespaceError (msg : String)
  | mountError (msg : String)
  | overlayFsError (msg : String)
  | ptyError (msg : String)
  | chrootError (msg : String)
  | execError (msg : String)
  | ioError (msg : String)
  | syscallError (msg : String)
  | pathError (msg : String)
  | processError (msg : String)
deriving DecidableEq, Repr

/-- The design-level kind name of a `RootboxError` value (its variant name). -/
def RootboxError.kindName : RootboxError → String
  | .namespaceError _ => "NamespaceError"
  | .mountError _ => "MountError"
  | .overlayFsError _ => "OverlayFsError"
  | .ptyError _ => "PtyError"
  | .chrootError _ => "ChrootError"
  | .execError _ => "ExecError"
  | .ioError _ => "IoError"
  | .syscallError _ => "SyscallError"
  | .pathError _ => "PathError"
  | .processError _ => "ProcessError"

/-- The variant names of `RootboxError` as declared in error.rs. -/
def rootboxKindNames : List String :=
  ["NamespaceError", "MountError", "OverlayFsError", "PtyError", "ChrootError",
   "ExecError", "IoError", "SyscallError", "PathError", "ProcessError"]

theorem kindName_mem_rootboxKindNames (e : RootboxError) :
    e.kindName ∈ rootboxKindNames := by
  cases e <;> simp [RootboxError.kindName, rootboxKindNames]

/-- What `std::fs::read_to_string` followed by `toml::from_str` can yield:
an I/O failure, malformed TOML, or a parsed document. -/
inductive FileRead where
  | ioFailure
  | malformed
  | parsed (p : ConfigOpt)
deriving DecidableEq, Repr

/-- The error of `Config::from_file`: it returns `anyhow::Result`, so a
failure carries the underlying `std::io::Error` or `toml::de::Error`
directly (no `RootboxError` is constructed). -/
inductive LoadError where
  | ioErr
  | tomlErr
deriving DecidableEq, Repr

/-- `Config::from_file` from config.rs: `read_to_string(path)?` then
`toml::from_str(&content)?`, with the `#[serde(default)]` semantics of the
config structs. -/
def Config.from_file : FileRead → Except LoadError Config
  | .ioFailure => .error .ioErr
  | .malformed => .error .tomlErr
  | .parsed p => .ok (Config.fromOpt p)

/-- `Config::load_or_default` from config.rs. -/
def Config.load_or_default : Option FileRead → Except LoadError Config
  | some r => Config.from_file r
  | none => .ok Config.default

/-! ## Path helpers (Rust `Path` semantics used by the sources) -/

/-- `Path::strip_prefix("/").unwrap_or(p)`: removes one leading slash. -/
def stripLeadingSlash (s : String) : String :=
  match s.data with
  | '/' :: r => String.mk r
  | _ => s

/-- `PathBuf::join`: an absolute argument replaces the base, otherwise the
argument is appended with a separator when the base lacks a trailing one. -/
def rustJoin (base arg : String) : String :=
  match arg.data with
  | '/' :: _ => arg
  | _ => if base.data.getLast? = some '/' then base ++ arg else base ++ "/" ++ arg

theorem strA_data_append (s t : String) : (s ++ t).data = s.data ++ t.data := by
  cases s; cases t; rfl

theorem strA_ext {s t : String} (h : s.data = t.data) : s = t := by
  cases s; cases t; exact congrArg String.mk h

/-! ## Step events emitted by the launch pipeline -/

/-- Mount flags used by the sources (subset of `MsFlags`). -/
structure MsFlags where
  ms_bind : Bool
  ms_rec : Bool
  ms_rdonly : Bool
  ms_private : Bool
deriving DecidableEq, Repr

def MsFlags.empty : MsFlags := ⟨false, false, false, false⟩

/-- `MS_REC | MS_PRIVATE` used to make the root mount private. -/
def MsFlags.recPrivate : MsFlags := ⟨false, true, false, true⟩

/-- One observable action of the pipeline (syscall or filesystem effect). -/
inductive Step where
  | setupPty
  | prctlPdeath
  | unshareUser
  | writeProc (path content : String)
  | unshareNs (pid uts net : Bool)
  | setHostname (h : String)
  | setDomainname (d : String)
  | forkPoint
  | closeFd (which : String)
  | setRawModeCall
  | ioLoopCall
  | waitpidCall
  | closeCall
  | restoreCall
  | unshareMount
  | createTempDir (p : String)
  | createDirAll (p : String)
  | mountCall (src : Option String) (target : String) (fstype : Option String)
      (flags : MsFlags) (data : Option String)
  | umountDetach (p : String)
  | removeDir (p : String)
  | chrootTo (p : String)
  | chdirRoot
  | setupSlaveCall
  | setNoNewPrivs
  | execveCall (cmd : String)
deriving DecidableEq, Repr

/-! ## namespace.rs -/

/-- `NamespaceManager` from namespace.rs; `outer_uid`/`outer_gid` are the
values of `getuid()`/`getgid()` captured at construction. -/
structure NamespaceManager where
  config : Config
  outer_uid : Nat
  outer_gid : Nat
deriving Repr

def uid_map_path (pid : Nat) : String := "/proc/" ++ toString pid ++ "/uid_map"

def gid_map_path (pid : Nat) : String := "/proc/" ++ toString pid ++ "/gid_map"

def setgroups_path (pid : Nat) : String := "/proc/" ++ toString pid ++ "/setgroups"

/-- `NamespaceManager::setup_uid_map` (namespace.rs): writes `0 <uid> 1\n`
to `/proc/<pid>/uid_map`. -/
def NamespaceManager.setup_uid_map (m : NamespaceManager) (pid : Nat) : List Step :=
  [.writeProc (uid_map_path pid) ("0 " ++ toString m.outer_uid ++ " 1\n")]

/-- `NamespaceManager::setup_gid_map` (namespace.rs): writes `deny\n` to
`/proc/<pid>/setgroups` first, then `0 <gid> 1\n` to `/proc/<pid>/gid_map`. -/
def NamespaceManager.setup_gid_map (m : NamespaceManager) (pid : Nat) : List Step :=
  [.writeProc (setgroups_path pid) "deny\n",
   .writeProc (gid_map_path pid) ("0 " ++ toString m.outer_gid ++ " 1\n")]

/-- `NamespaceManager::setup_user_namespace` (namespace.rs): no-op when the
feature is off or the caller is root; otherwise unshare `CLONE_NEWUSER`,
write the uid map, then the gid map (setgroups first). -/
def NamespaceManager.setup_user_namespace (m : NamespaceManager) (pid : Nat) : List Step :=
  if !m.config.features.user_namespace then []
  else if m.outer_uid = 0 then []
  else .unshareUser :: (m.setup_uid_map pid ++ m.setup_gid_map pid)

/-- `NamespaceManager::set_hostname` (namespace.rs): sethostname, then
setdomainname when configured (its failure is only warned). -/
def NamespaceManager.set_hostname (m : NamespaceManager) (h : String) : List Step :=
  .setHostname h ::
    (match m.config.namespaces.domainname with
     | some d => [.setDomainname d]
     | none => [])

/-- `NamespaceManager::setup_namespaces` (namespace.rs): one `unshare` call
with the union of the enabled PID/UTS/NET flags (skipped if empty), then
hostname handling when UTS is enabled. -/
def NamespaceManager.setup_namespaces (m : NamespaceManager) : List Step :=
  let f := m.config.features
  (if f.pid_namespace || f.uts_namespace || f.network_namespace then
    [.unshareNs f.pid_namespace f.uts_namespace f.network_namespace]
  else []) ++
  (if f.uts_namespace then
    m.set_hostname (m.config.namespaces.hostname.getD "rootbox")
  else [])

/-- `NamespaceManager::setup_mount_namespace` (namespace.rs): no-op when the
feature is off; otherwise unshare `CLONE_NEWNS` and, when
`make_root_private` is set, remount `/` with `MS_REC | MS_PRIVATE`. -/
def NamespaceManager.setup_mount_namespace (m : NamespaceManager) : List Step :=
  if !m.config.features.mount_namespace then []
  else
    .unshareMount ::
      (if m.config.mounts.make_root_private then
        [.mountCall none "/" none MsFlags.recPrivate none]
      else [])

/-- `NamespaceManager::setup_parent_death_signal` (namespace.rs): prctl
`PR_SET_PDEATHSIG` (best effort) unless disabled. -/
def NamespaceManager.setup_parent_death_signal (m : NamespaceManager) : List Step :=
  if m.config.features.parent_death_signal then [.prctlPdeath] else []

/-- `NamespaceManager::set_no_new_privs` (namespace.rs): prctl
`PR_SET_NO_NEW_PRIVS` unless disabled. -/
def NamespaceManager.set_no_new_privs (m : NamespaceManager) : List Step :=
  if m.config.features.no_new_privs then [.setNoNewPrivs] else []

/-! ## mount.rs : MountManager -/

/-- `MountManager` from mount.rs. -/
structure MountManager where
  config : Config
deriving Repr

/-- `MountManager::ensure_dir` (mount.rs): `create_dir_all` when the path
does not exist; `ex` is the existence oracle. -/
def MountManager.ensure_dir (_m : MountManager) (ex : String → Bool) (p : String) : List Step :=
  if ex p then [] else [.createDirAll p]

/-- `MountManager::setup_bind_mount` (mount.rs): resolve the destination
under the new root by stripping a leading slash, ensure the directory, and
bind-mount with `MS_BIND` plus `MS_REC` when recursive and `MS_RDONLY` when
readonly; the source is passed verbatim. -/
def MountManager.setup_bind_mount (m : MountManager) (ex : String → Bool)
    (new_root : String) (bm : BindMount) : List Step :=
  let dest := rustJoin new_root (stripLeadingSlash bm.destination)
  m.ensure_dir ex dest ++
    [.mountCall (some bm.source) dest none
      ⟨true, bm.recursive, bm.readonly, false⟩ none]

/-- `MountManager::setup_basic_mounts` (mount.rs): /proc (procfs), /sys
(recursive bind, optionally read-only), /dev (recursive bind), /tmp
(tmpfs), then the configured bind mounts, each directory ensured first. -/
def MountManager.setup_basic_mounts (m : MountManager) (ex : String → Bool)
    (new_root : String) : List Step :=
  (if m.config.mounts.mount_proc then
    m.ensure_dir ex (rustJoin new_root "proc") ++
      [.mountCall (some "proc") (rustJoin new_root "proc") (some "proc") MsFlags.empty none]
  else []) ++
  (if m.config.mounts.mount_sys then
    m.ensure_dir ex (rustJoin new_root "sys") ++
      [.mountCall (some "/sys") (rustJoin new_root "sys") none
        ⟨true, true, m.config.mounts.sys_readonly, false⟩ none]
  else []) ++
  (if m.config.mounts.mount_dev then
    m.ensure_dir ex (rustJoin new_root "dev") ++
      [.mountCall (some "/dev") (rustJoin new_root "dev") none ⟨true, true, false, false⟩ none]
  else []) ++
  (if m.config.mounts.mount_tmp then
    m.ensure_dir ex (rustJoin new_root "tmp") ++
      [.mountCall (some "tmpfs") (rustJoin new_root "tmp") (some "tmpfs") MsFlags.empty none]
  else []) ++
  (m.config.mounts.bind_mounts.map (m.setup_bind_mount ex new_root)).flatten

/-- `MountManager::chroot` (mount.rs): chroot then chdir to `/`. -/
def MountManager.chroot (_m : MountManager) (new_root : String) : List Step :=
  [.chrootTo new_root, .chdirRoot]

/-! ## mount.rs : OverlayFsManager -/

/-- `OverlayFsManager` from mount.rs: image path, optional persist path and
the owned `TempDir`s (by path).  `new` stores the inputs and creates
nothing (`temp_dirs` starts empty). -/
structure OverlayFsManager where
  image_path : String
  persist_path : Option String
  temp_dirs : List String
deriving DecidableEq, Repr

/-- `OverlayFsManager::new` (mount.rs). -/
def OverlayFsManager.new (image_path : String) (persist_path : Option String) :
    OverlayFsManager :=
  { image_path := image_path, persist_path := persist_path, temp_dirs := [] }

/-- Fresh paths returned by the three possible `TempDir::new()` calls made
by `OverlayFsManager::setup`. -/
structure ScratchNames where
  merged : String
  work : String
  upper : String
deriving DecidableEq, Repr

/-- The overlay mount option string built by `OverlayFsManager::setup`. -/
def overlay_options (lowerdir upperdir workdir : String) : String :=
  "lowerdir=" ++ lowerdir ++ ",upperdir=" ++ upperdir ++ ",workdir=" ++ workdir

/-- `OverlayFsManager::setup` (mount.rs): create the merged and work temp
directories, pick the upper (create-all the persist directory if given,
otherwise a third temp directory pushed onto `temp_dirs`), mount overlayfs
at the merged path with `lowerdir=<image>`, and keep merged and work in
`temp_dirs`.  Returns the updated manager, the merged path and the events. -/
def OverlayFsManager.setup (m : OverlayFsManager) (nm : ScratchNames) :
    OverlayFsManager × String × List Step :=
  let upperPick : String × List Step × List String :=
    match m.persist_path with
    | some persist => (persist, [.createDirAll persist], [])
    | none => (nm.upper, [.createTempDir nm.upper], [nm.upper])
  let events : List Step :=
    [.createTempDir nm.merged, .createTempDir nm.work] ++ upperPick.2.1 ++
      [.mountCall (some "overlay") nm.merged (some "overlay") MsFlags.empty
        (some (overlay_options m.image_path upperPick.1 nm.work))]
  ({ m with temp_dirs := m.temp_dirs ++ upperPick.2.2 ++ [nm.merged, nm.work] },
   nm.merged, events)

/-- `OverlayFsManager::cleanup` (mount.rs): `umount2(merged_path,
MNT_DETACH)` (failure only warned), then clear `temp_dirs`, dropping every
owned `TempDir` (which removes its directory). -/
def OverlayFsManager.cleanup (m : OverlayFsManager) (merged_path : String) :
    OverlayFsManager × List Step :=
  ({ m with temp_dirs := [] },
   .umountDetach merged_path :: m.temp_dirs.map .removeDir)

/-! ## pty.rs : PtyManager state and the parent-side terminal protocol -/

/-- Terminal attributes (`Termios`), abstract. -/
abbrev Termios := Nat

/-- `PtyManager` from pty.rs. -/
structure PtyManager where
  config : Config
  master_fd : Option Int
  slave_fd : Option Int
  original_termios : Option Termios
deriving Repr

/-- `PtyManager::new` (pty.rs). -/
def PtyManager.new (config : Config) : PtyManager :=
  { config := config, master_fd := none, slave_fd := none, original_termios := none }

/-- `PtyManager::setup_pty` (pty.rs): errors when the pty feature is off;
otherwise captures the stdin termios when stdin is a TTY, opens the pair
and records both fds.  `stdinTty` and `cur` are the isatty/tcgetattr
oracle, `mfd`/`sfd` the fds returned by openpty. -/
def PtyManager.setup_pty (p : PtyManager) (stdinTty : Bool) (cur : Termios)
    (mfd sfd : Int) : Except RootboxError (PtyManager × Int × Int) :=
  if !p.config.features.pty_enabled then
    .error (.ptyError "PTY disabled in config")
  else
    .ok ({ p with
            master_fd := some mfd
            slave_fd := some sfd
            original_termios := if stdinTty then some cur else none },
         mfd, sfd)

/-- `PtyManager::close` (pty.rs): takes and closes both fds, ignoring close
errors; always returns success. -/
def PtyManager.close (p : PtyManager) : PtyManager :=
  { p with master_fd := none, slave_fd := none }

/-! ## pty.rs : io_loop_blocking -/

/-- Result of one `select` call as observed by the loop. -/
inductive SelectRes where
  | ok (stdinReady masterReady : Bool)
  | eintr
  | err
deriving DecidableEq, Repr

/-- Result of one `nix::unistd::read` as observed by the loop (`ok 0` is
end-of-file). -/
inductive ReadRes where
  | ok (n : Nat)
  | eintr
  | eio
  | other
deriving DecidableEq, Repr

/-- The environment of a single loop iteration: the select outcome, the
read outcomes, and the return values of the two raw `libc::write` calls. -/
structure IterEvent where
  sel : SelectRes
  stdinRead : ReadRes
  masterWriteN : Int
  masterRead : ReadRes
  stdoutWriteN : Int
deriving DecidableEq, Repr

/-- How the proxy loop in `io_loop_blocking` stopped.  `scriptEnd` means
the environment script ran out with the loop still running. -/
inductive LoopExit where
  | selectError
  | eofStdin
  | shortWriteMaster
  | stdinReadError
  | eofMaster
  | eioMaster
  | shortWriteStdout
  | masterReadError
  | scriptEnd
deriving DecidableEq, Repr

/-- The master-to-stdout half of an iteration (pty.rs io_loop_blocking):
EOF breaks, a short write to stdout breaks, `EIO` breaks cleanly (child
exited), any other read error (including `EINTR`) breaks with a warning;
otherwise the loop continues with `k`. -/
def ioLoopMasterSide (e : IterEvent) (masterReady : Bool) (k : LoopExit) : LoopExit :=
  if masterReady then
    match e.masterRead with
    | .ok 0 => .eofMaster
    | .ok (n + 1) => if e.stdoutWriteN = ((n + 1 : Nat) : Int) then k else .shortWriteStdout
    | .eio => .eioMaster
    | .eintr => .masterReadError
    | .other => .masterReadError
  else k

/-- The loop of `PtyManager::io_loop_blocking` (pty.rs), driven by a finite
environment script.  `select` returning `EINTR` retries; a `select` error
breaks.  When stdin is ready: EOF breaks, a short write to the master
breaks, and any read error (including `EINTR`) breaks with a warning.
Then the master side runs as in `ioLoopMasterSide`. -/
def ioLoop : List IterEvent → LoopExit
  | [] => .scriptEnd
  | e :: rest =>
    match e.sel with
    | .eintr => ioLoop rest
    | .err => .selectError
    | .ok stdinReady masterReady =>
      if stdinReady then
        match e.stdinRead with
        | .ok 0 => .eofStdin
        | .ok (n + 1) =>
          if e.masterWriteN = ((n + 1 : Nat) : Int) then
            ioLoopMasterSide e masterReady (ioLoop rest)
          else .shortWriteMaster
        | .eintr => .stdinReadError
        | .eio => .stdinReadError
        | .other => .stdinReadError
      else ioLoopMasterSide e masterReady (ioLoop rest)

/-- `PtyManager::io_loop_blocking` (pty.rs): runs the loop and returns
`Ok(())` whichever way the loop stopped. -/
def io_loop_blocking (script : List IterEvent) : Except RootboxError Unit :=
  match ioLoop script with
  | .selectError => .ok ()
  | .eofStdin => .ok ()
  | .shortWriteMaster => .ok ()
  | .stdinReadError => .ok ()
  | .eofMaster => .ok ()
  | .eioMaster => .ok ()
  | .shortWriteStdout => .ok ()
  | .masterReadError => .ok ()
  | .scriptEnd => .ok ()

/-! ## pty.rs : terminal events of the parent branch of run_container -/

/-- One parent-side action touching the PTY or the host terminal. -/
inductive PEvent where
  | closeSlaveE
  | rawModeE (t : Termios)
  | ioLoopE
  | waitpidE
  | closeE
  | restoreE (applied : Option Termios)
  | overlayCleanupE
deriving DecidableEq, Repr

/-- `PtyManager::restore_terminal` (pty.rs): re-applies the captured
termios when one was captured and stdin is still a TTY; otherwise applies
nothing.  The emitted event records what was applied. -/
def PtyManager.restore_terminal (p : PtyManager) (ttyNow : Bool) : PEvent :=
  .restoreE (match p.original_termios with
             | some t => if ttyNow then some t else none
             | none => none)

/-- `impl Drop for PtyManager` (pty.rs): `close()` then `restore_terminal()`. -/
def PtyManager.dropEvents (p : PtyManager) (ttyNow : Bool) : List PEvent :=
  [.closeE, p.restore_terminal ttyNow]

/-- The parent branch of `run_container` (main.rs) after the fork, with the
`Drop` of the `PtyManager` at every exit: close the slave fd, enter raw
mode (`rawT` is `cfmakeraw` of the freshly read attributes; failure aborts),
run the blocking I/O loop, `waitpid` (failure aborts), close the master,
restore the terminal (failure aborts), and clean up the overlay if present.
Returns the emitted events. -/
def run_container_parent_events (m : PtyManager) (stdinTty rawOk : Bool)
    (rawT : Termios) (script : List IterEvent) (waitOk restoreOk ttyAtExit : Bool)
    (hasOverlay : Bool) : List PEvent :=
  if stdinTty && !rawOk then
    [.closeSlaveE] ++ m.dropEvents ttyAtExit
  else
    let raws : List PEvent := if stdinTty then [.rawModeE rawT] else []
    match io_loop_blocking script with
    | .error _ => [.closeSlaveE] ++ raws ++ [.ioLoopE] ++ m.dropEvents ttyAtExit
    | .ok _ =>
      if !waitOk then
        [.closeSlaveE] ++ raws ++ [.ioLoopE, .waitpidE] ++ m.dropEvents ttyAtExit
      else
        let m1 := m.close
        let re := m1.restore_terminal ttyAtExit
        if !restoreOk then
          [.closeSlaveE] ++ raws ++ [.ioLoopE, .waitpidE, .closeE, re] ++
            m1.dropEvents ttyAtExit
        else
          [.closeSlaveE] ++ raws ++ [.ioLoopE, .waitpidE, .closeE, re] ++
            (if hasOverlay then [.overlayCleanupE] else []) ++
            m1.dropEvents ttyAtExit

/-- A pre-fork failure path of `run_container` (an orchestrator error before
the fork): the manager is dropped, which closes the fds and restores the
terminal. -/
def run_container_prefork_error_events (m : PtyManager) (ttyAtExit : Bool) : List PEvent :=
  m.dropEvents ttyAtExit

/-! ## main.rs : run_container as step traces

`run_container` is a linear sequence of calls; its observable actions are
collected side by side: the pre-fork prefix is shared, then each process
continues with its own branch.  `uid`/`gid`/`pid` are the values of
getuid/getgid/getpid, `ex` the directory-existence oracle, `nm` the fresh
paths handed out by `TempDir::new` inside the child's overlay setup. -/

/-- `execute_command` (main.rs): builds the argv and calls `execvp`. -/
def execute_command (cmd : String) : List Step := [.execveCall cmd]

/-- The pre-fork part of `run_container` (main.rs): PTY setup, then
parent-death signal, user namespace, and the combined PID/UTS/NET unshare. -/
def run_container_prefork (cfg : Config) (uid gid pid : Nat) : List Step :=
  let ns : NamespaceManager := ⟨cfg, uid, gid⟩
  [.setupPty] ++ ns.setup_parent_death_signal ++ ns.setup_user_namespace pid ++
    ns.setup_namespaces

/-- The full step trace of the child process of `run_container` (main.rs):
the pre-fork prefix, the fork, then close master, mount namespace, overlay
setup when a composer was supplied, basic mounts, chroot, slave PTY setup,
NO_NEW_PRIVS, and execve. -/
def run_container_child_trace (cfg : Config) (uid gid pid : Nat)
    (ofs : Option (OverlayFsManager × ScratchNames)) (ex : String → Bool)
    (final_root cmd : String) : List Step :=
  let ns : NamespaceManager := ⟨cfg, uid, gid⟩
  let mm : MountManager := ⟨cfg⟩
  run_container_prefork cfg uid gid pid ++
    [.forkPoint, .closeFd "master"] ++
    ns.setup_mount_namespace ++
    (match ofs with
     | some (m, nm) => (m.setup nm).2.2
     | none => []) ++
    mm.setup_basic_mounts ex final_root ++
    mm.chroot final_root ++
    [.setupSlaveCall] ++
    ns.set_no_new_privs ++
    execute_command cmd

/-- The post-fork steps of the parent process of `run_container` (main.rs):
close slave, raw mode, I/O loop, waitpid, close master, restore terminal,
then overlay cleanup when a composer was supplied (the parent's manager is
the one from before the fork, whose `temp_dirs` is untouched by the
child's setup; `merged_arg` is the path handed to `cleanup`). -/
def run_container_parent_postfork (ofs : Option OverlayFsManager)
    (merged_arg : String) : List Step :=
  [.closeFd "slave", .setRawModeCall, .ioLoopCall, .waitpidCall, .closeCall,
   .restoreCall] ++
    (match ofs with
     | some m => (m.cleanup merged_arg).2
     | none => [])

/-- Steps that the launch sequence must run only in the child (or not at
all in the parent): namespace/mount/chroot/privilege/exec actions. -/
def Step.isChildOnlySetup : Step → Bool
  | .unshareMount => true
  | .createTempDir _ => true
  | .createDirAll _ => true
  | .mountCall _ _ _ _ _ => true
  | .chrootTo _ => true
  | .chdirRoot => true
  | .setupSlaveCall => true
  | .setNoNewPrivs => true
  | .execveCall _ => true
  | _ => false

/-! ## Auxiliary observation functions -/

/-- The contents written to proc file `p` by a step list, in order. -/
def writesTo (evs : List Step) (p : String) : List String :=
  evs.filterMap (fun s =>
    match s with
    | .writeProc q c => if q = p then some c else none
    | _ => none)

/-- Splits a character list on `:`. -/
def splitColonChars : List Char → List Char → List (List Char)
  | [], acc => [acc.reverse]
  | ':' :: rest, acc => acc.reverse :: splitColonChars rest []
  | c :: rest, acc => splitColonChars rest (c :: acc)

/-- The colon-separated entries of a string (as in an overlayfs
`lowerdir=` option value). -/
def splitColon (s : String) : List String :=
  (splitColonChars s.data []).map String.mk

/-- All nine feature toggles enabled. -/
def Features.allOn : Features :=
  { overlayfs := true
    user_namespace := true
    mount_namespace := true
    pid_namespace := true
    uts_namespace := true
    network_namespace := true
    pty_enabled := true
    parent_death_signal := true
    no_new_privs := true }

/-- The default config with every feature toggle switched on. -/
def allOnConfig : Config := { Config.default with features := Features.allOn }

theorem proc_suffix_ne (pid : Nat) {a b : String} (h : a ≠ b) :
    ("/proc/" ++ toString pid ++ a) ≠ ("/proc/" ++ toString pid ++ b) := by
  intro hEq
  apply h
  apply strA_ext
  have hd := congrArg String.data hEq
  simp only [strA_data_append, List.append_assoc] at hd
  exact List.append_cancel_left (List.append_cancel_left hd)

theorem stripLeadingSlash_slash_append (rest : String) :
    stripLeadingSlash ("/" ++ rest) = rest := by
  obtain ⟨l⟩ := rest
  rfl

/-! ## Claim theorems -/

/-- C5: for a caller with outer UID ≠ 0 and the user namespace enabled,
user-namespace setup writes exactly one line `0 <uid> 1` to uid_map and
exactly one line `0 <gid> 1` to gid_map, and writes `deny` to setgroups
strictly before the gid_map write. -/
theorem user_namespace_map_writes (cfg : Config) (uid gid pid : Nat)
    (hu : cfg.features.user_namespace = true) (h0 : uid ≠ 0) :
    writesTo ((⟨cfg, uid, gid⟩ : NamespaceManager).setup_user_namespace pid)
        (uid_map_path pid) = ["0 " ++ toString uid ++ " 1\n"] ∧
    writesTo ((⟨cfg, uid, gid⟩ : NamespaceManager).setup_user_namespace pid)
        (gid_map_path pid) = ["0 " ++ toString gid ++ " 1\n"] ∧
    ∃ i j : Nat, i < j ∧
      ((⟨cfg, uid, gid⟩ : NamespaceManager).setup_user_namespace pid).get? i =
        some (.writeProc (setgroups_path pid) "deny\n") ∧
      ((⟨cfg, uid, gid⟩ : NamespaceManager).setup_user_namespace pid).get? j =
        some (.writeProc (gid_map_path pid) ("0 " ++ toString gid ++ " 1\n")) := by
  have hsu : setgroups_path pid ≠ uid_map_path pid := proc_suffix_ne pid (by decide)
  have hgu : gid_map_path pid ≠ uid_map_path pid := proc_suffix_ne pid (by decide)
  have hug : uid_map_path pid ≠ gid_map_path pid := proc_suffix_ne pid (by decide)
  have hsg : setgroups_path pid ≠ gid_map_path pid := proc_suffix_ne pid (by decide)
  refine ⟨?_, ?_, 2, 3, by norm_num, ?_, ?_⟩ <;>
    simp [NamespaceManager.setup_user_namespace, NamespaceManager.setup_uid_map,
      NamespaceManager.setup_gid_map, hu, h0, writesTo, hsu, hgu, hug, hsg]

/-- C5 witness: the uid_map write at a concrete caller. -/
theorem user_namespace_map_writes_witness :
    writesTo ((⟨Config.default, 1000, 1000⟩ : NamespaceManager).setup_user_namespace 7)
        (uid_map_path 7) = ["0 " ++ toString 1000 ++ " 1\n"] :=
  (user_namespace_map_writes Config.default 1000 1000 7 rfl (by decide)).1

/-- C6: a bind mount with absolute destination `D` is mounted at
`join(new_root, D without its leading slash)`, the target directory is
created when absent, the source is used verbatim, and the flags are
exactly BIND, plus REC when recursive, plus RDONLY when readonly. -/
theorem bind_mount_resolution (cfg : Config) (ex : String → Bool)
    (root src rest : String) (ro rc : Bool)
    (_hrel : rest.data.head? ≠ some '/') :
    (⟨cfg⟩ : MountManager).setup_bind_mount ex root ⟨src, "/" ++ rest, ro, rc⟩ =
      (if ex (rustJoin root rest) then [] else [.createDirAll (rustJoin root rest)]) ++
        [.mountCall (some src) (rustJoin root rest) none ⟨true, rc, ro, false⟩ none] := by
  simp [MountManager.setup_bind_mount, MountManager.ensure_dir,
    stripLeadingSlash_slash_append]

/-- C6 witness: the bind mount `{source=/host/x, destination=/data/y}` with
new root `/tmp/r` targets `/tmp/r/data/y`, creating it when absent. -/
theorem bind_mount_resolution_witness :
    (⟨Config.default⟩ : MountManager).setup_bind_mount (fun _ => false) "/tmp/r"
        ⟨"/host/x", "/data/y", false, true⟩ =
      [.createDirAll "/tmp/r/data/y",
       .mountCall (some "/host/x") "/tmp/r/data/y" none ⟨true, true, false, false⟩ none] :=
  (bind_mount_resolution Config.default (fun _ => false) "/tmp/r" "/host/x" "data/y"
      false true (by decide)).trans rfl

/-- C2 evaluation at the failing input `overlay /img --extra-layers /A
--extra-layers /B`: the lowerdir value handed to the overlay mount is the
bare image path — one colon-separated entry, not the three reversed
entries `B:A:/img` the CLI advertises (`OverlayFsManager::new` cannot even
receive the extra layers `main.rs` passes to it). -/
theorem overlay_lowerdir_single_entry :
    ((OverlayFsManager.new "/img" none).setup ⟨"/tmp/M", "/tmp/W", "/tmp/U"⟩).2.2 =
      [.createTempDir "/tmp/M", .createTempDir "/tmp/W", .createTempDir "/tmp/U",
       .mountCall (some "overlay") "/tmp/M" (some "overlay") MsFlags.empty
         (some "lowerdir=/img,upperdir=/tmp/U,workdir=/tmp/W")] ∧
    splitColon "/img" = ["/img"] ∧
    (splitColon "/img").length = 1 ∧
    splitColon "/img" ≠ (("/img" :: ["/A", "/B"]).reverse) :=
  ⟨rfl, rfl, rfl, by decide⟩

/-- C3 evaluation at the failing input `overlay /img true` (ephemeral):
`OverlayFsManager::new` allocates nothing (`temp_dirs` starts empty), and
in the launch trace the fork (index 8) precedes every scratch-directory
creation (the first is at index 12): the merged/work/upper scratch is
created by `setup()` in the child, not by `new()` in the parent. -/
theorem overlay_scratch_created_in_child :
    (OverlayFsManager.new "/img" none).temp_dirs = [] ∧
    run_container_child_trace Config.default 1000 1000 7
        (some (OverlayFsManager.new "/img" none, ⟨"/tmp/M", "/tmp/W", "/tmp/U"⟩))
        (fun _ => true) "/newroot" "sh" =
      [.setupPty, .prctlPdeath, .unshareUser,
       .writeProc "/proc/7/uid_map" "0 1000 1\n",
       .writeProc "/proc/7/setgroups" "deny\n",
       .writeProc "/proc/7/gid_map" "0 1000 1\n",
       .unshareNs true true false, .setHostname "rootbox",
       .forkPoint, .closeFd "master",
       .unshareMount, .mountCall none "/" none MsFlags.recPrivate none,
       .createTempDir "/tmp/M", .createTempDir "/tmp/W", .createTempDir "/tmp/U",
       .mountCall (some "overlay") "/tmp/M" (some "overlay") MsFlags.empty
         (some "lowerdir=/img,upperdir=/tmp/U,workdir=/tmp/W"),
       .mountCall (some "proc") "/newroot/proc" (some "proc") MsFlags.empty none,
       .mountCall (some "/sys") "/newroot/sys" none ⟨true, true, true, false⟩ none,
       .mountCall (some "/dev") "/newroot/dev" none ⟨true, true, false, false⟩ none,
       .mountCall (some "tmpfs") "/newroot/tmp" (some "tmpfs") MsFlags.empty none,
       .chrootTo "/newroot", .chdirRoot, .setupSlaveCall, .setNoNewPrivs,
       .execveCall "sh"] ∧
    (run_container_child_trace Config.default 1000 1000 7
        (some (OverlayFsManager.new "/img" none, ⟨"/tmp/M", "/tmp/W", "/tmp/U"⟩))
        (fun _ => true) "/newroot" "sh").get? 8 = some .forkPoint ∧
    (run_container_child_trace Config.default 1000 1000 7
        (some (OverlayFsManager.new "/img" none, ⟨"/tmp/M", "/tmp/W", "/tmp/U"⟩))
        (fun _ => true) "/newroot" "sh").get? 12 = some (.createTempDir "/tmp/M") :=
  ⟨rfl, rfl, rfl, rfl⟩

/-- C4 counterexample: after an ephemeral overlay setup, `cleanup` emits an
explicit detaching unmount (`umount2(merged, MNT_DETACH)`) before dropping
the scratch directories — the claim states no explicit unmount occurs. -/
theorem cleanup_performs_explicit_unmount :
    ((((OverlayFsManager.new "/img" none).setup
          ⟨"/tmp/M", "/tmp/W", "/tmp/U"⟩).1).cleanup "/tmp/M").2 =
      [.umountDetach "/tmp/M", .removeDir "/tmp/U", .removeDir "/tmp/M",
       .removeDir "/tmp/W"] ∧
    Step.umountDetach "/tmp/M" ∈
      ((((OverlayFsManager.new "/img" none).setup
          ⟨"/tmp/M", "/tmp/W", "/tmp/U"⟩).1).cleanup "/tmp/M").2 :=
  ⟨rfl, by decide⟩

/-- C4 amended: `cleanup(merged)` first attempts a detaching unmount of the
overlay (failure only warned), then removes exactly the scratch
directories `setup` recorded — the ephemeral upper iff no persistent upper
was given, plus the merged and work scratch; a caller-supplied persistent
upper (distinct from the fresh scratch paths) is never removed. -/
theorem cleanup_removes_only_scratch (img : String) (persist : Option String)
    (nm : ScratchNames) (mp : String) :
    ((((OverlayFsManager.new img persist).setup nm).1).cleanup mp).2 =
      .umountDetach mp ::
        ((match persist with
          | some _ => [nm.merged, nm.work]
          | none => [nm.upper, nm.merged, nm.work]).map .removeDir) ∧
    ((((OverlayFsManager.new img persist).setup nm).1).cleanup mp).1.temp_dirs = [] ∧
    ∀ p, persist = some p → p ≠ nm.merged → p ≠ nm.work →
      Step.removeDir p ∉ ((((OverlayFsManager.new img persist).setup nm).1).cleanup mp).2 := by
  refine ⟨?_, ?_, ?_⟩
  · cases persist <;>
      simp [OverlayFsManager.new, OverlayFsManager.setup, OverlayFsManager.cleanup]
  · cases persist <;>
      simp [OverlayFsManager.new, OverlayFsManager.setup, OverlayFsManager.cleanup]
  · rintro p rfl hm hw
    simp [OverlayFsManager.new, OverlayFsManager.setup, OverlayFsManager.cleanup,
      hm, hw]

/-- C4 amended witness: a concrete persistent upper survives cleanup. -/
theorem cleanup_removes_only_scratch_witness :
    Step.removeDir "/pers" ∉
      ((((OverlayFsManager.new "/img" (some "/pers")).setup
          ⟨"/tmp/M", "/tmp/W", "/tmp/U"⟩).1).cleanup "/tmp/M").2 :=
  (cleanup_removes_only_scratch "/img" (some "/pers") ⟨"/tmp/M", "/tmp/W", "/tmp/U"⟩
      "/tmp/M").2.2 "/pers" rfl (by decide) (by decide)

/-- C1: with every feature toggle on (and an unprivileged caller, so that
user-namespace setup actually unshares and writes the maps), the launch
trace is exactly: PTY setup, then parent-death signal, user-namespace
setup (unshare plus uid/gid map writes), the combined PID/UTS/NET unshare
(with hostname handling), fork, and in the child: mount-namespace
creation, the overlay setup/mount when a composer was supplied, basic
mounts, chroot, slave attachment, NO_NEW_PRIVS, execve; and no
mount/chroot/privilege/exec step appears in the parent's post-fork branch. -/
theorem launch_order_all_toggles (cfg : Config) (uid gid pid : Nat)
    (img : String) (persist : Option String) (nm : ScratchNames)
    (ex : String → Bool) (root cmd mergedArg : String)
    (hAll : cfg.features = Features.allOn) (h0 : uid ≠ 0) :
    run_container_child_trace cfg uid gid pid
        (some (OverlayFsManager.new img persist, nm)) ex root cmd =
      [.setupPty, .prctlPdeath, .unshareUser,
       .writeProc (uid_map_path pid) ("0 " ++ toString uid ++ " 1\n"),
       .writeProc (setgroups_path pid) "deny\n",
       .writeProc (gid_map_path pid) ("0 " ++ toString gid ++ " 1\n"),
       .unshareNs true true true] ++
      (⟨cfg, uid, gid⟩ : NamespaceManager).set_hostname
        (cfg.namespaces.hostname.getD "rootbox") ++
      [.forkPoint, .closeFd "master", .unshareMount] ++
      (if cfg.mounts.make_root_private then
        [.mountCall none "/" none MsFlags.recPrivate none]
      else []) ++
      [.createTempDir nm.merged, .createTempDir nm.work] ++
      (match persist with
       | some p => [.createDirAll p]
       | none => [.createTempDir nm.upper]) ++
      [.mountCall (some "overlay") nm.merged (some "overlay") MsFlags.empty
        (some (overlay_options img
          (match persist with | some p => p | none => nm.upper) nm.work))] ++
      (⟨cfg⟩ : MountManager).setup_basic_mounts ex root ++
      [.chrootTo root, .chdirRoot, .setupSlaveCall, .setNoNewPrivs,
       .execveCall cmd] ∧
    ∀ s ∈ run_container_parent_postfork (some (OverlayFsManager.new img persist))
        mergedArg, s.isChildOnlySetup = false := by
  constructor
  · cases persist <;>
      simp [run_container_child_trace, run_container_prefork,
        NamespaceManager.setup_parent_death_signal,
        NamespaceManager.setup_user_namespace, NamespaceManager.setup_uid_map,
        NamespaceManager.setup_gid_map, NamespaceManager.setup_namespaces,
        NamespaceManager.setup_mount_namespace, NamespaceManager.set_no_new_privs,
        MountManager.chroot, execute_command, OverlayFsManager.setup,
        OverlayFsManager.new, hAll, Features.allOn, h0]
  · intro s hs
    simp [run_container_parent_postfork, OverlayFsManager.cleanup,
      OverlayFsManager.new] at hs
    rcases hs with rfl | rfl | rfl | rfl | rfl | rfl | rfl <;> rfl

/-- C1 witness: the launch trace at a concrete all-on config and caller. -/
theorem launch_order_all_toggles_witness :
    run_container_child_trace allOnConfig 1000 1000 7
        (some (OverlayFsManager.new "/img" none, ⟨"/tmp/M", "/tmp/W", "/tmp/U"⟩))
        (fun _ => true) "/newroot" "sh" =
      [.setupPty, .prctlPdeath, .unshareUser,
       .writeProc "/proc/7/uid_map" "0 1000 1\n",
       .writeProc "/proc/7/setgroups" "deny\n",
       .writeProc "/proc/7/gid_map" "0 1000 1\n",
       .unshareNs true true true, .setHostname "rootbox",
       .forkPoint, .closeFd "master",
       .unshareMount, .mountCall none "/" none MsFlags.recPrivate none,
       .createTempDir "/tmp/M", .createTempDir "/tmp/W", .createTempDir "/tmp/U",
       .mountCall (some "overlay") "/tmp/M" (some "overlay") MsFlags.empty
         (some "lowerdir=/img,upperdir=/tmp/U,workdir=/tmp/W"),
       .mountCall (some "proc") "/newroot/proc" (some "proc") MsFlags.empty none,
       .mountCall (some "/sys") "/newroot/sys" none ⟨true, true, true, false⟩ none,
       .mountCall (some "/dev") "/newroot/dev" none ⟨true, true, false, false⟩ none,
       .mountCall (some "tmpfs") "/newroot/tmp" (some "tmpfs") MsFlags.empty none,
       .chrootTo "/newroot", .chdirRoot, .setupSlaveCall, .setNoNewPrivs,
       .execveCall "sh"] :=
  ((launch_order_all_toggles allOnConfig 1000 1000 7 "/img" none
      ⟨"/tmp/M", "/tmp/W", "/tmp/U"⟩ (fun _ => true) "/newroot" "sh" "/tmp/M"
      rfl (by decide)).1).trans rfl

/-- C7 counterexample: an `EINTR` returned by the master read terminates
the loop (with a warning) instead of retrying — only the `select` call
retries on `EINTR`.  With the one-iteration script whose select reports
the master readable and whose master read returns `EINTR`, the loop exits
with `masterReadError` rather than continuing like the empty script. -/
theorem io_loop_read_eintr_terminates :
    ioLoop [⟨.ok false true, .ok 0, 0, .eintr, 0⟩] = .masterReadError ∧
    ioLoop [⟨.ok false true, .ok 0, 0, .eintr, 0⟩] ≠ ioLoop [] :=
  ⟨rfl, by decide⟩

/-- C7 amended: EOF on either descriptor and `EIO` on the master end the
loop cleanly; an `EINTR` from `select` retries, but an `EINTR` from a read
ends the loop with a warning exactly like any other read error; a short
write on either side ends the loop; a `select` error ends the loop. -/
theorem io_loop_exit_conditions (e : IterEvent) (rest : List IterEvent) :
    (e.sel = .eintr → ioLoop (e :: rest) = ioLoop rest) ∧
    (e.sel = .err → ioLoop (e :: rest) = .selectError) ∧
    (∀ mR, e.sel = .ok true mR → e.stdinRead = .ok 0 →
      ioLoop (e :: rest) = .eofStdin) ∧
    (∀ mR n, e.sel = .ok true mR → e.stdinRead = .ok (n + 1) →
      e.masterWriteN ≠ ((n + 1 : Nat) : Int) → ioLoop (e :: rest) = .shortWriteMaster) ∧
    (∀ mR, e.sel = .ok true mR →
      (e.stdinRead = .eintr ∨ e.stdinRead = .eio ∨ e.stdinRead = .other) →
      ioLoop (e :: rest) = .stdinReadError) ∧
    (e.sel = .ok false true → e.masterRead = .ok 0 → ioLoop (e :: rest) = .eofMaster) ∧
    (e.sel = .ok false true → e.masterRead = .eio → ioLoop (e :: rest) = .eioMaster) ∧
    (∀ n, e.sel = .ok false true → e.masterRead = .ok (n + 1) →
      e.stdoutWriteN ≠ ((n + 1 : Nat) : Int) → ioLoop (e :: rest) = .shortWriteStdout) ∧
    (e.sel = .ok false true → (e.masterRead = .eintr ∨ e.masterRead = .other) →
      ioLoop (e :: rest) = .masterReadError) ∧
    (e.sel = .ok false false → ioLoop (e :: rest) = ioLoop rest) := by
  obtain ⟨sel, sr, mw, mr, sw⟩ := e
  refine ⟨?_, ?_, ?_, ?_, ?_, ?_, ?_, ?_, ?_, ?_⟩
  · rintro rfl; rfl
  · rintro rfl; rfl
  · rintro mR rfl rfl; rfl
  · rintro mR n rfl rfl hne
    have hne' : mw ≠ ((n + 1 : Nat) : Int) := hne
    push_cast at hne'
    simp [ioLoop, hne']
  · rintro mR rfl (rfl | rfl | rfl) <;> rfl
  · rintro rfl rfl; rfl
  · rintro rfl rfl; rfl
  · rintro n rfl rfl hne
    have hne' : sw ≠ ((n + 1 : Nat) : Int) := hne
    push_cast at hne'
    simp [ioLoop, ioLoopMasterSide, hne']
  · rintro rfl (rfl | rfl) <;> rfl
  · rintro rfl; rfl

/-- C7 amended witness: a `select` interrupted by `EINTR` retries. -/
theorem io_loop_exit_conditions_witness :
    ioLoop [⟨.eintr, .ok 0, 0, .ok 0, 0⟩] = ioLoop [] :=
  (io_loop_exit_conditions ⟨.eintr, .ok 0, 0, .ok 0, 0⟩ []).1 rfl

theorem close_restore_terminal (m : PtyManager) (x : Bool) :
    m.close.restore_terminal x = m.restore_terminal x := rfl

set_option maxHeartbeats 1600000 in
/-- Every event the parent branch emits is one of the fixed actions or the
restore event computed from the manager's captured termios. -/
theorem parent_events_shape (m : PtyManager) (stdinTty rawOk : Bool)
    (rawT : Termios) (script : List IterEvent)
    (waitOk restoreOk ttyAtExit hasOverlay : Bool) :
    ∀ ev ∈ run_container_parent_events m stdinTty rawOk rawT script waitOk
        restoreOk ttyAtExit hasOverlay,
      ev = PEvent.closeSlaveE ∨ ev = PEvent.rawModeE rawT ∨ ev = PEvent.ioLoopE ∨
        ev = PEvent.waitpidE ∨ ev = PEvent.closeE ∨ ev = PEvent.overlayCleanupE ∨
        ev = m.restore_terminal ttyAtExit := by
  intro ev hev
  rcases hloop : io_loop_blocking script with e | u <;>
    cases stdinTty <;> cases rawOk <;> cases waitOk <;> cases restoreOk <;>
      cases hasOverlay <;>
    simp [run_container_parent_events, hloop, PtyManager.dropEvents,
      close_restore_terminal] at hev <;>
    tauto

/-- C8: when host stdin is a TTY at startup, the termios captured by
`setup_pty` is stored unchanged in `original_termios`, and every termios
the parent re-applies through `restore_terminal` — on the normal return,
after a raw-mode, waitpid or restore failure (via the manager's `Drop`),
and on a pre-fork orchestrator error — is exactly the captured value. -/
theorem restore_applies_captured_termios (cfg : Config) (t0 : Termios)
    (mfd sfd : Int) (m : PtyManager) (a b : Int)
    (hset : (PtyManager.new cfg).setup_pty true t0 mfd sfd = Except.ok (m, a, b))
    (stdinTty rawOk : Bool) (rawT : Termios) (script : List IterEvent)
    (waitOk restoreOk ttyAtExit hasOverlay : Bool) :
    m.original_termios = some t0 ∧
    (∀ t, PEvent.restoreE (some t) ∈
        run_container_parent_events m stdinTty rawOk rawT script waitOk restoreOk
          ttyAtExit hasOverlay → t = t0) ∧
    (∀ t, PEvent.restoreE (some t) ∈
        run_container_prefork_error_events m ttyAtExit → t = t0) := by
  have hm : m.original_termios = some t0 := by
    by_cases h : cfg.features.pty_enabled
    · simp [PtyManager.setup_pty, PtyManager.new, h] at hset
      rw [← hset.1]
    · simp [PtyManager.setup_pty, PtyManager.new, h] at hset
  have happ : ∀ t x, PEvent.restoreE (some t) = m.restore_terminal x → t = t0 := by
    intro t x hr
    rw [PtyManager.restore_terminal, hm] at hr
    by_cases hx : x = true <;> simp [hx] at hr
    exact hr
  refine ⟨hm, ?_, ?_⟩
  · intro t ht
    rcases parent_events_shape m stdinTty rawOk rawT script waitOk restoreOk
        ttyAtExit hasOverlay _ ht with h | h | h | h | h | h | h
    iterate 6 simp at h
    exact happ t ttyAtExit h
  · intro t ht
    simp [run_container_prefork_error_events, PtyManager.dropEvents,
      PtyManager.restore_terminal, hm] at ht
    by_cases hx : ttyAtExit = true <;> simp [hx] at ht
    exact ht

/-- The manager produced by a successful `setup_pty` at a concrete TTY. -/
def ptySetupWitnessManager : PtyManager :=
  { config := Config.default, master_fd := some 3, slave_fd := some 4,
    original_termios := some 5 }

/-- C8 witness: the captured termios at a concrete setup. -/
theorem restore_applies_captured_termios_witness :
    ptySetupWitnessManager.original_termios = some 5 :=
  (restore_applies_captured_termios Config.default 5 3 4 ptySetupWitnessManager
      3 4 rfl true true 9 [] true true true true).1

/-- C10: `io_loop_blocking` returns `Ok(())` for every environment script —
select failures, read failures and short writes only end the loop — so the
`?` the parent applies to it never aborts, and (when raw mode succeeded)
the parent branch always reaches `waitpid`, closes the master, and calls
`restore_terminal`. -/
theorem io_loop_total_parent_proceeds (script : List IterEvent) (m : PtyManager)
    (stdinTty : Bool) (rawT : Termios)
    (waitOk restoreOk ttyAtExit hasOverlay : Bool) :
    io_loop_blocking script = Except.ok () ∧
    PEvent.waitpidE ∈ run_container_parent_events m stdinTty true rawT script
        waitOk restoreOk ttyAtExit hasOverlay ∧
    PEvent.closeE ∈ run_container_parent_events m stdinTty true rawT script
        waitOk restoreOk ttyAtExit hasOverlay ∧
    ∃ ap, PEvent.restoreE ap ∈ run_container_parent_events m stdinTty true rawT
        script waitOk restoreOk ttyAtExit hasOverlay := by
  have hok : io_loop_blocking script = Except.ok () := by
    rcases h : ioLoop script <;> simp [io_loop_blocking, h]
  refine ⟨hok, ?_, ?_, ?_⟩ <;>
    cases stdinTty <;> cases waitOk <;> cases restoreOk <;> cases hasOverlay <;>
      simp [run_container_parent_events, hok, PtyManager.dropEvents,
        close_restore_terminal, PtyManager.restore_terminal]

/-- C9 counterexample: on malformed content `Config::from_file` fails with
the raw TOML deserialization error propagated through `anyhow`, and the
program's error taxonomy (`RootboxError`, error.rs) has no `ConfigError`
kind at all for it to be classified under. -/
theorem from_file_error_not_config_error :
    Config.from_file .malformed = Except.error .tomlErr ∧
    rootboxKindNames.contains "ConfigError" = false :=
  ⟨rfl, by decide⟩

/-- C9 amended: load-from-file fails on an I/O failure or on malformed
content — carrying the underlying I/O or TOML error, untyped, rather than
a `ConfigError` of the `RootboxError` taxonomy (which defines no such
kind) — and a well-formed file always loads, with every missing field or
section taking its default. -/
theorem from_file_failure_and_defaults :
    Config.from_file .ioFailure = .error .ioErr ∧
    Config.from_file .malformed = .error .tomlErr ∧
    (∀ p : ConfigOpt, Config.from_file (.parsed p) = .ok (Config.fromOpt p)) ∧
    Config.fromOpt ConfigOpt.empty = Config.default ∧
    (∀ p : ConfigOpt, p.features = none →
      (Config.fromOpt p).features = Features.default) ∧
    (∀ p : ConfigOpt, p.pty = none → (Config.fromOpt p).pty = Pty.default) := by
  refine ⟨rfl, rfl, fun p => rfl, rfl, ?_, ?_⟩
  · intro p hp
    simp [Config.fromOpt, hp]
  · intro p hp
    simp [Config.fromOpt, hp]

/-- C9 amended witness: the empty document's `features` section defaults. -/
theorem from_file_failure_and_defaults_witness :
    (Config.fromOpt ConfigOpt.empty).features = Features.default :=
  from_file_failure_and_defaults.2.2.2.2.1 ConfigOpt.empty rfl
